import Mathlib

/-!
Verification of the Néo-Banque credit-scoring dashboard
(file src/streamlit_app.py) against its natural-language specification.

The script is embedded shallowly:
- a pandas DataFrame row becomes a Lean structure with rational numeric
  fields (CSV numbers are decimals, so Rat is exact for every value the
  program can read);
- Python exceptions become Option / explicit outcome constructors;
- the external HTTP call becomes a value of an outcome type that the
  straight-line handler code consumes.
-/

namespace Dashboard

/-- One row of data/clients.csv, before client ids are assigned.
All numeric columns are modeled as rationals: pandas may load any of them
as int64 or float64 depending on the file contents, and the script applies
explicit int()/float() coercions later precisely because of that. -/
structure RawRow where
  age : Rat
  revenu : Rat
  anciennete : Rat
  nb_incidents : Rat
  score_credit : Rat
deriving DecidableEq

/-- One record of the loaded catalog: a raw row plus the client_id column
produced by reset_index().rename(columns=\x7b"index": "client_id"\x7d)
(line 16 of streamlit_app.py). -/
structure ClientRecord where
  client_id : Nat
  age : Rat
  revenu : Rat
  anciennete : Rat
  nb_incidents : Rat
  score_credit : Rat
deriving DecidableEq

/-- Line 16: clients = pd.read_csv(...).reset_index().rename(columns=
\x7b"index": "client_id"\x7d).  reset_index on a freshly read CSV turns the
positional RangeIndex 0..n-1 into a column, so each row gets its load-order
position as client_id. -/
def loadClients (rows : List RawRow) : List ClientRecord :=
  rows.enum.map fun p =>
    { client_id := p.1
      age := p.2.age
      revenu := p.2.revenu
      anciennete := p.2.anciennete
      nb_incidents := p.2.nb_incidents
      score_credit := p.2.score_credit }

/-- Python int() on a float/number: truncation toward zero.  Used by the
slider bounds (lines 23-25) and the payload builder (lines 48-51). -/
def pyInt (q : Rat) : Int :=
  if 0 ≤ q then ⌊q⌋ else ⌈q⌉

/-- The three slider ranges (lines 23-25).  Streamlit sliders built from
integer bounds yield integer endpoints, inclusive on both ends. -/
structure Ranges where
  age : Int × Int
  revenu : Int × Int
  nb_incidents : Int × Int
deriving DecidableEq

/-- The conjunction of the six comparisons on lines 28-30. -/
def matchesFilter (rs : Ranges) (r : ClientRecord) : Bool :=
  ((rs.age.1 : Rat) ≤ r.age) && (r.age ≤ (rs.age.2 : Rat)) &&
  ((rs.revenu.1 : Rat) ≤ r.revenu) && (r.revenu ≤ (rs.revenu.2 : Rat)) &&
  ((rs.nb_incidents.1 : Rat) ≤ r.nb_incidents) &&
    (r.nb_incidents ≤ (rs.nb_incidents.2 : Rat))

/-- Lines 27-31: boolean-mask selection keeps, in frame order, exactly the
rows whose mask entry is True. -/
def filtered_clients (clients : List ClientRecord) (rs : Ranges) : List ClientRecord :=
  clients.filter (matchesFilter rs)

/-- Line 33: the displayed count is len(filtered_clients). -/
def filteredCount (clients : List ClientRecord) (rs : Ranges) : Nat :=
  (filtered_clients clients rs).length

/-- Outcome of resolving the selected client id against the filtered view
(line 39).  notFound is the defined failure the specification asks for; the
code never produces it: filtered_clients[mask].iloc[0] on an empty selection
raises an IndexError that no surrounding try/except catches, which we model
as crash. -/
inductive ResolveOutcome where
  | found (r : ClientRecord)
  | notFound
  | crash
deriving DecidableEq

/-- Line 39: client = filtered_clients[filtered_clients.client_id ==
selected_client_id].iloc[0].  The mask keeps the rows whose client_id equals
the selected id; .iloc[0] takes the first such row and raises IndexError
when there is none. -/
def resolveClient (view : List ClientRecord) (id : Nat) : ResolveOutcome :=
  match (view.filter fun r => r.client_id == id).head? with
  | some r => ResolveOutcome.found r
  | none => ResolveOutcome.crash

/-- The scoring request payload (lines 47-53): exactly the five keys of the
dict literal, with the coercions written in the source. -/
structure Payload where
  age : Int
  revenu : Rat
  anciennete : Int
  nb_incidents : Int
  score_credit : Rat
deriving DecidableEq

/-- Lines 47-53: the dict literal sent to the scoring endpoint. -/
def buildPayload (c : ClientRecord) : Payload :=
  { age := pyInt c.age
    revenu := c.revenu
    anciennete := pyInt c.anciennete
    nb_incidents := pyInt c.nb_incidents
    score_credit := c.score_credit }

/-! ### Explanation-string parsing (lines 107-108 and 127-132)

Python strings are modeled as lists of characters so that every split is a
structural recursion.  The apostrophe character used as the quote delimiter
is written Char.ofNat 39. -/

/-- The quote delimiter of the explanation format (an apostrophe). -/
def quoteChar : Char := Char.ofNat 39

/-- Python s.split(sep) for a one-character separator: cuts at every
occurrence of the separator and keeps empty pieces, so the result always
has (number of separators + 1) elements. -/
def splitOnChar (sep : Char) : List Char → List (List Char)
  | [] => [[]]
  | c :: rest =>
    match splitOnChar sep rest with
    | [] => if c = sep then [[], [c]] else [[c]]
    | t :: ts => if c = sep then [] :: t :: ts else (c :: t) :: ts

/-- Python s.split() with no argument: maximal runs of non-whitespace
characters, empty pieces discarded. -/
def pySplitWs (s : List Char) : List (List Char) :=
  ((splitOnChar ' ' s).flatMap (splitOnChar '\t')
    |>.flatMap (splitOnChar '\n') |>.flatMap (splitOnChar '\r')).filter
    fun t => t ≠ []

/-- Lines 107 and 128, f.split(quote)[1]: the segment after the first
quote.  Indexing a Python list out of range raises IndexError, modeled as
none; this happens exactly when the string contains no quote at all. -/
def quotedSegment? (f : List Char) : Option (List Char) :=
  (splitOnChar quoteChar f).get? 1

/-- Lines 108 and 129, f.split()[-1]: the last whitespace-separated token.
On a string with no token (empty or all-whitespace) Python raises
IndexError, modeled as none. -/
def lastToken? (f : List Char) : Option (List Char) :=
  (pySplitWs f).getLast?

/-- Numeric value of a digit string read in base 10. -/
def digitsVal (cs : List Char) : Nat :=
  cs.foldl (fun n c => 10 * n + (c.toNat - 48)) 0

/-- Python float(token) on the decimal-literal fragment of its grammar:
optional sign, then digits with an optional decimal point (at least one
digit overall).  Tokens outside this fragment (words, empty strings,
misplaced signs) raise ValueError, modeled as none.  The exotic inputs
float() also accepts (exponents, inf, nan, underscores) never occur in the
explanation format and are not modeled. -/
def pyFloat? (s : List Char) : Option Rat :=
  let t := (s.dropWhile Char.isWhitespace).reverse.dropWhile Char.isWhitespace |>.reverse
  let (neg, body) :=
    match t with
    | '-' :: r => (true, r)
    | '+' :: r => (false, r)
    | r => (false, r)
  let intPart := body.takeWhile Char.isDigit
  let rest := body.dropWhile Char.isDigit
  let mag? : Option Rat :=
    match rest with
    | [] => if intPart.isEmpty then none else some (digitsVal intPart : Rat)
    | '.' :: fr =>
      let fracPart := fr.takeWhile Char.isDigit
      let rest2 := fr.dropWhile Char.isDigit
      if rest2.isEmpty && !(intPart.isEmpty && fracPart.isEmpty) then
        some ((digitsVal intPart : Rat) +
          (digitsVal fracPart : Rat) / (10 : Rat) ^ fracPart.length)
      else none
    | _ => none
  mag?.map fun v => if neg then -v else v

/-- Line 107: features = [f.split(quote)[1] for f in shap_factors].  A list
comprehension evaluates its body for every element and the first exception
aborts the whole comprehension, so the result is all-or-nothing. -/
def features? (xs : List (List Char)) : Option (List (List Char)) :=
  xs.mapM quotedSegment?

/-- Line 108: contributions = [float(f.split()[-1]) for f in shap_factors],
with the same all-or-nothing behavior as features. -/
def contributions? (xs : List (List Char)) : Option (List Rat) :=
  xs.mapM fun f => (lastToken? f).bind pyFloat?

/-- The (feature, contribution) pairs the radar section works with: both
comprehensions must succeed on every entry, otherwise the whole block dies
with an uncaught exception. -/
def shapFactorsParsed (xs : List (List Char)) :
    Option (List (List Char × Rat)) := do
  let ns ← features? xs
  let cs ← contributions? xs
  pure (ns.zip cs)

/-! ### Normalization and risk direction (lines 110-111 and 130-131) -/

/-- Python max() over a list: the running maximum, raising ValueError on an
empty list (modeled as none). -/
def pyMax : List Rat → Option Rat
  | [] => none
  | x :: xs => some (xs.foldl max x)

/-- Line 110: max_val = max(abs(np.array(contributions))) or 1.  The
Python expression x or 1 yields 1 exactly when x is falsy, and the float
0.0 is falsy, so a zero maximum is replaced by 1. -/
def max_val (cs : List Rat) : Option Rat :=
  (pyMax (cs.map fun c => |c|)).map fun m => if m = 0 then 1 else m

/-- Line 111: contributions_norm = [c/max_val for c in contributions]. -/
def contributions_norm (cs : List Rat) : Option (List Rat) :=
  (max_val cs).map fun m => cs.map fun c => c / m

/-- The two phrases of line 130. -/
inductive RiskDirection where
  | reduces
  | increases
deriving DecidableEq

/-- Line 130: direction = "réduit le risque" if value < 0 else "augmente
le risque". -/
def direction (value : Rat) : RiskDirection :=
  if value < 0 then RiskDirection.reduces else RiskDirection.increases

/-! ### The scoring call (lines 43-61) and the score gauge (lines 67-93) -/

/-- The decoded JSON body of a scoring response: both keys optional
(resp.get with defaults on lines 58-59). -/
structure RespJson where
  score : Option Rat
  explanations : Option (List (List Char))
deriving DecidableEq

/-- What the POST on line 55 can come back with.  networkFailure covers
every exception requests.post itself raises: connection errors and the
10-second timeout.  A response carries its HTTP status and its body, where
none stands for a body that is not valid JSON (r.json() raises). -/
inductive CallResult where
  | response (status : Nat) (body : Option RespJson)
  | networkFailure
deriving DecidableEq

/-- requests raise_for_status: raises HTTPError exactly for client-error
(4xx) and server-error (5xx) status codes, and is silent on everything
else, including 1xx and 3xx. -/
def raiseForStatusRaises (status : Nat) : Bool :=
  400 ≤ status && status < 600

/-- The state the button handler leaves behind: score (initialized to None
on line 43), shap_factors (initialized to [] on line 44), and whether
st.error was called on line 61. -/
structure ScoreState where
  score : Option Rat
  shap_factors : List (List Char)
  errorShown : Bool
deriving DecidableEq

/-- Lines 43-61: score = None and shap_factors = [] are set before the
try block; any exception out of requests.post, raise_for_status or
r.json() lands in the except arm, which shows an inline error and leaves
both variables at their initial values.  On a non-raising path score and
shap_factors are read from the body with resp.get defaults. -/
def runScoring : CallResult → ScoreState
  | CallResult.networkFailure => ⟨none, [], true⟩
  | CallResult.response status body? =>
    if raiseForStatusRaises status then ⟨none, [], true⟩
    else
      match body? with
      | none => ⟨none, [], true⟩
      | some body => ⟨body.score, body.explanations.getD [], false⟩

/-- The verdict banner of lines 86-91. -/
inductive Verdict where
  | eligible
  | maybeEligible
  | notEligible
deriving DecidableEq

/-- What the summary column renders. -/
inductive SummaryDisplay where
  | gauge (pct : Rat) (verdict : Verdict)
  | infoPrompt
deriving DecidableEq

/-- Lines 67-93: if score is not None the gauge shows score*100 and one of
three banners; otherwise an info prompt asks the user to trigger scoring. -/
def col_summary : Option Rat → SummaryDisplay
  | none => SummaryDisplay.infoPrompt
  | some s =>
    SummaryDisplay.gauge (s * 100)
      (if 4/5 ≤ s then Verdict.eligible
       else if 1/2 ≤ s then Verdict.maybeEligible
       else Verdict.notEligible)

/-! ### Slider bounds (lines 23-25) -/

/-- Python min() over a list, raising on empty (modeled as none).  pandas
Series.min over a column behaves the same on nonempty data. -/
def pyMin : List Rat → Option Rat
  | [] => none
  | x :: xs => some (xs.foldl min x)

/-- Line 24: the revenue slider is built from int(clients.revenu.min())
and int(clients.revenu.max()), so the selectable bounds are the integer
truncations of the column extremes. -/
def revenuSliderBounds (clients : List ClientRecord) : Option (Int × Int) :=
  match pyMin (clients.map fun r => r.revenu),
        pyMax (clients.map fun r => r.revenu) with
  | some lo, some hi => some (pyInt lo, pyInt hi)
  | _, _ => none

/-! ## Theorems -/

/-- Bridge between the boolean mask of lines 28-30 and the three
inclusive-range predicates stated by the specification. -/
lemma matchesFilter_eq_true_iff (rs : Ranges) (r : ClientRecord) :
    matchesFilter rs r = true ↔
      ((rs.age.1 : Rat) ≤ r.age ∧ r.age ≤ (rs.age.2 : Rat)) ∧
      ((rs.revenu.1 : Rat) ≤ r.revenu ∧ r.revenu ≤ (rs.revenu.2 : Rat)) ∧
      ((rs.nb_incidents.1 : Rat) ≤ r.nb_incidents ∧
        r.nb_incidents ≤ (rs.nb_incidents.2 : Rat)) := by
  simp [matchesFilter, Bool.and_eq_true, decide_eq_true_eq, and_assoc]

/-- Claim C1: for every catalog and every three inclusive ranges, the
filter returns exactly the subsequence of catalog records satisfying all
three inclusive-range predicates conjunctively, in catalog order; the
displayed count equals the number of matching records; and the result is
an empty view exactly when no record matches (never an error: the function
is total). -/
theorem C1_filter_exact (clients : List ClientRecord) (rs : Ranges) :
    (filtered_clients clients rs).Sublist clients ∧
    (∀ r, r ∈ filtered_clients clients rs ↔
      r ∈ clients ∧
      ((rs.age.1 : Rat) ≤ r.age ∧ r.age ≤ (rs.age.2 : Rat)) ∧
      ((rs.revenu.1 : Rat) ≤ r.revenu ∧ r.revenu ≤ (rs.revenu.2 : Rat)) ∧
      ((rs.nb_incidents.1 : Rat) ≤ r.nb_incidents ∧
        r.nb_incidents ≤ (rs.nb_incidents.2 : Rat))) ∧
    filteredCount clients rs = clients.countP (matchesFilter rs) ∧
    (filtered_clients clients rs = [] ↔
      ∀ r ∈ clients,
        ¬(((rs.age.1 : Rat) ≤ r.age ∧ r.age ≤ (rs.age.2 : Rat)) ∧
          ((rs.revenu.1 : Rat) ≤ r.revenu ∧ r.revenu ≤ (rs.revenu.2 : Rat)) ∧
          ((rs.nb_incidents.1 : Rat) ≤ r.nb_incidents ∧
            r.nb_incidents ≤ (rs.nb_incidents.2 : Rat)))) := by
  refine ⟨List.filter_sublist clients, fun r => ?_, ?_, ?_⟩
  · rw [filtered_clients, List.mem_filter, matchesFilter_eq_true_iff]
  · rw [filteredCount, filtered_clients, List.countP_eq_length_filter]
  · rw [filtered_clients, List.filter_eq_nil_iff]
    constructor
    · intro h r hr
      have := h r hr
      rw [matchesFilter_eq_true_iff] at this
      exact this
    · intro h r hr
      rw [matchesFilter_eq_true_iff]
      exact h r hr

/-- Claim C9: after a successful load, the client_id column is exactly the
positions 0..n-1 in load order, hence the ids are pairwise distinct, one
per source row.  The loaded catalog is an immutable value of the embedding,
so the ids cannot change afterwards. -/
theorem C9_client_ids (rows : List RawRow) :
    ((loadClients rows).map fun r => r.client_id) = List.range rows.length ∧
    ((loadClients rows).map fun r => r.client_id).Nodup ∧
    (loadClients rows).length = rows.length := by
  have hmap : ((loadClients rows).map fun r => r.client_id) =
      List.range rows.length := by
    rw [loadClients, List.map_map]
    have : ((fun r : ClientRecord => r.client_id) ∘ fun p : Nat × RawRow =>
        ({ client_id := p.1, age := p.2.age, revenu := p.2.revenu,
           anciennete := p.2.anciennete, nb_incidents := p.2.nb_incidents,
           score_credit := p.2.score_credit } : ClientRecord)) = Prod.fst := by
      funext p
      rfl
    rw [this, List.enum_map_fst]
  refine ⟨hmap, ?_, ?_⟩
  · rw [hmap]
    exact List.nodup_range rows.length
  · rw [loadClients, List.length_map, List.enum_length]

/-- Claim C2 (violated by the code): when the selected id is absent from
the filtered view, line 39 does not produce a defined NotFound failure: the
empty .iloc[0] indexing raises an uncaught IndexError, i.e. a crash.  The
first conjunct evaluates the resolver on a concrete one-record view and an
absent id; the second shows no input at all yields the NotFound outcome. -/
theorem C2_resolve_crash_on_absent_id :
    resolveClient (loadClients [⟨30, 50000, 5, 1, 600⟩]) 7 =
      ResolveOutcome.crash ∧
    ∀ (view : List ClientRecord) (id : Nat),
      resolveClient view id ≠ ResolveOutcome.notFound := by
  constructor
  · with_unfolding_all rfl
  · intro view id
    rw [resolveClient]
    cases (view.filter fun r => r.client_id == id).head? <;> simp

/-- Claim C4: the payload of lines 47-53 has exactly the five wire fields,
each with its fixed coercion — truncation to integer for age, anciennete
and nb_incidents, identity on the float fields — and it depends on nothing
else in the record: changing client_id leaves the payload unchanged. -/
theorem C4_payload_shape (c : ClientRecord) (n : Nat) :
    buildPayload c =
      { age := pyInt c.age, revenu := c.revenu, anciennete := pyInt c.anciennete,
        nb_incidents := pyInt c.nb_incidents, score_credit := c.score_credit } ∧
    buildPayload { c with client_id := n } = buildPayload c :=
  ⟨rfl, rfl⟩

/-- Claim C10: the revenue slider bounds are the integer truncations of the
float revenu column extremes (line 24), so a record whose revenu exceeds
the truncated maximum fails the upper revenue comparison of line 29 even at
the widest selectable revenue range and is excluded from the view. -/
theorem C10_trunc_bound_excludes (clients : List ClientRecord)
    (r : ClientRecord) (lo hi : Int) (rs : Ranges)
    (_hb : revenuSliderBounds clients = some (lo, hi))
    (hgt : (hi : Rat) < r.revenu)
    (hrs : rs.revenu = (lo, hi)) :
    r ∉ filtered_clients clients rs := by
  intro hmem
  rw [filtered_clients, List.mem_filter, matchesFilter_eq_true_iff] at hmem
  have hle : r.revenu ≤ (rs.revenu.2 : Rat) := hmem.2.2.1.2
  rw [hrs] at hle
  exact absurd hle (not_le.mpr hgt)

/-- A concrete instance of C10: a catalog whose only record has revenu
50000.5; the slider bounds truncate to (50000, 50000) and at that widest
range the record is filtered out, leaving an empty view. -/
theorem C10_trunc_bound_excludes_witness :
    (⟨0, 30, (100001 : Rat)/2, 5, 1, 600⟩ : ClientRecord) ∉
      filtered_clients (loadClients [⟨30, (100001 : Rat)/2, 5, 1, 600⟩])
        ⟨(0, 100), (50000, 50000), (0, 10)⟩ :=
  C10_trunc_bound_excludes _ _ 50000 50000 _
    (by with_unfolding_all rfl)
    (by norm_num)
    rfl

/-- Claim C5 (violated by the code on one point): a non-2xx HTTP status is
not always surfaced as a failure.  raise_for_status raises only for 4xx
and 5xx, so a 300 response carrying a valid JSON body sails through: here
the handler stores score 0.5 and shows no error, although 300 is not a 2xx
status. -/
theorem C5_counterexample_status300 :
    runScoring (CallResult.response 300 (some { score := some (1/2), explanations := none })) =
      { score := some (1/2), shap_factors := [], errorShown := false } ∧
    ¬(200 ≤ (300 : Nat) ∧ (300 : Nat) ≤ 299) := by
  constructor
  · with_unfolding_all rfl
  · decide

/-- Claim C5 as amended: for every scoring-call failure the code actually
catches — a network error or timeout raised by requests.post, a 4xx or 5xx
status raised by raise_for_status, or a body that is not valid JSON — the
except arm shows an inline error, the score stays None (never zero or a
previous value) and the factors list stays empty; the handler runs once per
trigger with no retry and the session continues. -/
theorem C5_failure_state (res : CallResult)
    (h : res = CallResult.networkFailure ∨
      ∃ status body?, res = CallResult.response status body? ∧
        ((400 ≤ status ∧ status < 600) ∨ body? = none)) :
    runScoring res = { score := none, shap_factors := [], errorShown := true } := by
  rcases h with h | ⟨status, body?, hres, hfail⟩
  · rw [h]
    rfl
  · subst hres
    rcases hfail with ⟨h4, h6⟩ | hnone
    · have hrs : raiseForStatusRaises status = true := by
        rw [raiseForStatusRaises]
        simp [h4, h6]
      simp [runScoring, hrs]
    · subst hnone
      by_cases hr : raiseForStatusRaises status = true <;> simp [runScoring, hr]

/-- C5 at a concrete failing call: a network failure leaves score None,
factors empty and the error banner shown. -/
theorem C5_failure_state_witness :
    runScoring CallResult.networkFailure =
      { score := none, shap_factors := [], errorShown := true } :=
  C5_failure_state CallResult.networkFailure (Or.inl rfl)

/-- Claim C6: a 200 response whose JSON body is the empty object leaves the
score None and the factors empty without any error or exception, and the
summary column renders the no-score info prompt for a None score — which is
a different display from any gauge, in particular from the gauge a zero
score would get. -/
theorem C6_empty_response :
    runScoring (CallResult.response 200 (some { score := none, explanations := none })) =
      { score := none, shap_factors := [], errorShown := false } ∧
    col_summary none = SummaryDisplay.infoPrompt ∧
    col_summary none ≠ col_summary (some 0) := by
  refine ⟨by with_unfolding_all rfl, rfl, ?_⟩
  intro h
  rw [col_summary, col_summary] at h
  exact SummaryDisplay.noConfusion h

/-- Claim C8: the risk-direction wording of line 130 is decided by the
comparison value < 0: strictly negative contributions read "réduit le
risque", and every non-negative contribution — zero included — reads
"augmente le risque". -/
theorem C8_direction_boundary (v : Rat) :
    (direction v = RiskDirection.reduces ↔ v < 0) ∧
    (direction v = RiskDirection.increases ↔ 0 ≤ v) ∧
    direction 0 = RiskDirection.increases := by
  refine ⟨⟨fun hd => ?_, fun hv => ?_⟩, ⟨fun hd => ?_, fun hv => ?_⟩, rfl⟩
  · by_contra hn
    rw [direction, if_neg hn] at hd
    exact RiskDirection.noConfusion hd
  · rw [direction, if_pos hv]
  · by_contra hn
    rw [direction, if_pos (not_le.mp hn)] at hd
    exact RiskDirection.noConfusion hd
  · rw [direction, if_neg (not_lt.mpr hv)]

/-- A running maximum is one of the values it ran over. -/
lemma foldl_max_mem (x : Rat) (xs : List Rat) : xs.foldl max x ∈ x :: xs := by
  induction xs generalizing x with
  | nil => exact List.mem_singleton.mpr rfl
  | cons y ys ih =>
    rw [List.foldl_cons]
    rcases max_choice x y with hm | hm <;> rw [hm] <;>
      rcases List.mem_cons.mp (ih _) with h2 | h2
    · exact List.mem_cons.mpr (Or.inl h2)
    · exact List.mem_cons_of_mem _ (List.mem_cons_of_mem _ h2)
    · exact List.mem_cons_of_mem _ (List.mem_cons.mpr (Or.inl h2))
    · exact List.mem_cons_of_mem _ (List.mem_cons_of_mem _ h2)

/-- A running maximum bounds its seed and every value it ran over. -/
lemma le_foldl_max (x : Rat) (xs : List Rat) :
    x ≤ xs.foldl max x ∧ ∀ c ∈ xs, c ≤ xs.foldl max x := by
  induction xs generalizing x with
  | nil => exact ⟨le_refl x, by simp⟩
  | cons y ys ih =>
    rw [List.foldl_cons]
    obtain ⟨h1, h2⟩ := ih (max x y)
    refine ⟨le_trans (le_max_left x y) h1, ?_⟩
    intro c hc
    rcases List.mem_cons.mp hc with hcy | hc
    · rw [hcy]
      exact le_trans (le_max_right x y) h1
    · exact h2 c hc

/-- Claim C7: on every non-empty contribution list the normalization of
lines 110-111 divides each raw contribution by one single divisor m; m is 1
when every contribution is zero (the zero-guard of the or-expression), and
otherwise m is the maximum absolute contribution of the set: it is the
absolute value of one of the entries and bounds them all. -/
theorem C7_normalization (cs : List Rat) (h : cs ≠ []) :
    ∃ m, max_val cs = some m ∧
      contributions_norm cs = some (cs.map fun c => c / m) ∧
      ((∀ c ∈ cs, c = 0) → m = 1) ∧
      ((∃ c ∈ cs, c ≠ 0) →
        (m ∈ cs.map fun c => |c|) ∧ ∀ c ∈ cs, |c| ≤ m) := by
  obtain ⟨x, xs, rfl⟩ := List.exists_cons_of_ne_nil h
  have hpy : pyMax ((x :: xs).map fun c => |c|) =
      some ((xs.map fun c => |c|).foldl max |x|) := rfl
  have hmem : ((xs.map fun c => |c|).foldl max |x|) ∈
      (x :: xs).map fun c => |c| := by
    rw [List.map_cons]
    exact foldl_max_mem _ _
  have hub : ∀ c ∈ x :: xs, |c| ≤ (xs.map fun c => |c|).foldl max |x| := by
    intro c hc
    rcases List.mem_cons.mp hc with rfl | hc
    · exact (le_foldl_max _ _).1
    · exact (le_foldl_max _ _).2 _ (List.mem_map_of_mem _ hc)
  have habs : ∃ c ∈ x :: xs, |c| = (xs.map fun c => |c|).foldl max |x| := by
    obtain ⟨c, hc, hce⟩ := List.mem_map.mp hmem
    exact ⟨c, hc, hce⟩
  by_cases hz : ((xs.map fun c => |c|).foldl max |x|) = 0
  · refine ⟨1, ?_, ?_, fun _ => rfl, ?_⟩
    · rw [max_val, hpy]
      simp [hz]
    · rw [contributions_norm, max_val, hpy]
      simp [hz]
    · rintro ⟨c, hc, hcne⟩
      exfalso
      have hle : |c| ≤ 0 := hz ▸ hub c hc
      exact hcne (abs_eq_zero.mp (le_antisymm hle (abs_nonneg c)))
  · refine ⟨_, ?_, ?_, ?_, fun _ => ⟨hmem, hub⟩⟩
    · rw [max_val, hpy]
      simp [hz]
    · rw [contributions_norm, max_val, hpy]
      simp [hz]
    · intro hall
      exfalso
      obtain ⟨c, hc, hce⟩ := habs
      exact hz (hce ▸ (by rw [hall c hc]; exact abs_zero))

/-- C7 at the concrete example of the specification: contributions -0.10
and 0.30 give divisor 0.30, and the normalized list is [-1/3, 1], so the
first normalized magnitude is 1/3 ≈ 0.333. -/
theorem C7_normalization_witness :
    (∃ m, max_val [-(1 : Rat)/10, 3/10] = some m ∧
      contributions_norm [-(1 : Rat)/10, 3/10] =
        some ([-(1 : Rat)/10, 3/10].map fun c => c / m) ∧
      ((∀ c ∈ [-(1 : Rat)/10, 3/10], c = 0) → m = 1) ∧
      ((∃ c ∈ [-(1 : Rat)/10, 3/10], c ≠ 0) →
        (m ∈ [-(1 : Rat)/10, 3/10].map fun c => |c|) ∧
        ∀ c ∈ [-(1 : Rat)/10, 3/10], |c| ≤ m)) ∧
    max_val [-(1 : Rat)/10, 3/10] = some (3/10) ∧
    contributions_norm [-(1 : Rat)/10, 3/10] = some [-(1 : Rat)/3, 1] :=
  ⟨C7_normalization _ (List.cons_ne_nil _ _),
   by with_unfolding_all rfl, by with_unfolding_all rfl⟩

/-- A Python list comprehension evaluates its body on every element, so one
failing element makes the whole comprehension fail. -/
lemma mapM'_none_of_mem {α β : Type} (g : α → Option β) :
    ∀ (xs : List α) (f : α), f ∈ xs → g f = none →
      List.mapM' g xs = none := by
  intro xs
  induction xs with
  | nil =>
    intro f h _
    cases h
  | cons y ys ih =>
    intro f hmem hnone
    rw [List.mapM'_cons]
    rcases List.mem_cons.mp hmem with h | hmem2
    · rw [← h, hnone]
      rfl
    · cases hg : g y with
      | none => rfl
      | some b =>
        show (List.mapM' g ys >>= fun l => pure (b :: l)) = none
        rw [ih f hmem2 hnone]
        rfl

/-- The same, phrased for List.mapM, the form the comprehensions use. -/
lemma mapM_none_of_mem {α β : Type} (g : α → Option β) {xs : List α}
    {f : α} (hmem : f ∈ xs) (hnone : g f = none) : xs.mapM g = none := by
  rw [← List.mapM'_eq_mapM]
  exact mapM'_none_of_mem g xs f hmem hnone

/-- Claim C3 (violated by the code): one malformed explanation does not
fail alone.  The first conjunct runs the parse on a response holding one
malformed entry (no quote anywhere) followed by one well-formed entry: the
whole parse dies (an uncaught IndexError in the script), yielding no
factors at all.  The second conjunct checks the trailing entry alone parses
fine, so the factors the claim promises do exist and are lost. -/
theorem C3_counterexample :
    shapFactorsParsed ["no quoted segment 0.5".toList,
      "\x27age\x27 contributes 0.42".toList] = none ∧
    shapFactorsParsed ["\x27age\x27 contributes 0.42".toList] =
      some [("age".toList, 21/50)] := by
  constructor <;> with_unfolding_all rfl

/-- Claim C3 as amended: an explanation entry that is malformed in either
spec sense — no quoted segment, or a missing/non-numeric trailing token —
makes the whole response parse fail with an uncaught exception: no factor
list is produced, not even from the well-formed entries. -/
theorem C3_malformed_aborts_all (xs : List (List Char)) (f : List Char)
    (hmem : f ∈ xs)
    (hbad : quotedSegment? f = none ∨ (lastToken? f).bind pyFloat? = none) :
    shapFactorsParsed xs = none := by
  rcases hbad with hb | hb
  · have hfeat : features? xs = none := mapM_none_of_mem _ hmem hb
    simp [shapFactorsParsed, hfeat]
  · have hcon : contributions? xs = none := mapM_none_of_mem _ hmem hb
    cases hf : features? xs <;> simp [shapFactorsParsed, hf, hcon]

/-- C3 amended claim at a concrete input: a response whose only entry has
no quoted segment parses to nothing. -/
theorem C3_malformed_aborts_all_witness :
    shapFactorsParsed ["no quoted segment 0.5".toList] = none :=
  C3_malformed_aborts_all _ ("no quoted segment 0.5".toList)
    (List.mem_singleton.mpr rfl) (Or.inl (by with_unfolding_all rfl))

end Dashboard
